import Mathlib

/-!
Shallow embedding of the certificate issuance and verification pipeline
from `main_certificate_system.py` and `blockchain_integration.py`.

Python values that flow through the pipeline (JSON-shaped dictionaries)
are modelled by the inductive type `Value`; a top-level record is a
`PyDict`, an association list of string keys to values.  External
effects (PDF rendering, the Pinata HTTP gateway, the Ethereum node) are
modelled by oracle fields in explicit world records; each operation
returns its Python result together with a trace of the side effects it
performed.  A Python function that can raise is modelled with `Except`:
`.error e` is an escaped exception with message `e`.
-/

inductive Value where
  | null : Value
  | bool : Bool → Value
  | int : Int → Value
  | str : String → Value
  | arr : List Value → Value
  | obj : List (String × Value) → Value

abbrev PyDict := List (String × Value)

/-- Python truthiness (`bool(v)`) for the value forms we model. -/
def pyTruthy : Value → Bool
  | .null => false
  | .bool b => b
  | .int n => n != 0
  | .str s => s != ""
  | .arr xs => !xs.isEmpty
  | .obj kvs => !kvs.isEmpty

/-- Dictionary lookup, `d.get(k)` returning `none` when the key is absent. -/
def pyGet (d : PyDict) (k : String) : Option Value :=
  (d.find? (fun p => p.1 == k)).map (·.2)

/-- Key membership test, Python `k in d`. -/
def hasKey (d : PyDict) (k : String) : Bool :=
  (pyGet d k).isSome

/-- Python attribute access `v.get(...)` requires `v` to actually be a dict;
on any other value the interpreter raises `AttributeError`. -/
def asDict : Option Value → Except String PyDict
  | none => .ok []
  | some (.obj kvs) => .ok kvs
  | some _ => .error "AttributeError: object has no attribute get"

/-- Lowercase hexadecimal digit. -/
def hexChar (n : Nat) : Char :=
  if n < 10 then Char.ofNat (48 + n) else Char.ofNat (87 + n)

/-- Four-digit lowercase hex rendering, as used by JSON \u escapes. -/
def hex4 (n : Nat) : String :=
  String.mk [hexChar ((n / 4096) % 16), hexChar ((n / 256) % 16),
             hexChar ((n / 16) % 16), hexChar (n % 16)]

/-- Escape of one character under `json.dumps` defaults (`ensure_ascii=True`):
`"` and `\` are backslash-escaped, common controls get short escapes, other
characters outside printable ASCII become \u escapes (surrogate pairs beyond
the BMP). -/
def jsonEscapeChar (c : Char) : String :=
  let n := c.toNat
  if n = 34 then "\\\""
  else if n = 92 then "\\\\"
  else if n = 10 then "\\n"
  else if n = 9 then "\\t"
  else if n = 13 then "\\r"
  else if n = 8 then "\\b"
  else if n = 12 then "\\f"
  else if 32 ≤ n ∧ n ≤ 126 then String.singleton c
  else if n ≤ 65535 then "\\u" ++ hex4 n
  else
    "\\u" ++ hex4 (55296 + (n - 65536) / 1024) ++ "\\u" ++ hex4 (56320 + (n - 65536) % 1024)

def jsonQuote (s : String) : String :=
  "\"" ++ String.join (s.toList.map jsonEscapeChar) ++ "\""

instance keyLeDec {α : Type} : DecidableRel (fun (p q : String × α) => p.1 ≤ q.1) :=
  fun p q => inferInstanceAs (Decidable (p.1 ≤ q.1))

/-- Sort an association list by key (Python `sorted` on the keys; string order
is lexicographic on code points in both languages). -/
def sortByKey {α : Type} (l : List (String × α)) : List (String × α) :=
  List.insertionSort (fun p q => p.1 ≤ q.1) l

mutual

/-- Serialization of a value as `json.dumps(data, sort_keys=True)` produces it:
item separator is a comma and a space, the key separator is a colon and a
space, object keys are emitted in sorted order.  Each entry value is
serialized in place and the serialized entries are then sorted by key; this
equals sorting the keys first, because a value's serialization does not
depend on its position. -/
def jsonDumps : Value → String
  | .null => "null"
  | .bool b => if b then "true" else "false"
  | .int n => toString n
  | .str s => jsonQuote s
  | .arr xs => "[" ++ String.intercalate ", " (jsonDumpsList xs) ++ "]"
  | .obj kvs =>
      "\x7b" ++ String.intercalate ", "
        ((sortByKey (jsonDumpsEntries kvs)).map (fun p => jsonQuote p.1 ++ ": " ++ p.2)) ++ "\x7d"

def jsonDumpsList : List Value → List String
  | [] => []
  | v :: rest => jsonDumps v :: jsonDumpsList rest

def jsonDumpsEntries : List (String × Value) → List (String × String)
  | [] => []
  | (k, v) :: rest => (k, jsonDumps v) :: jsonDumpsEntries rest

end

mutual

/-- Rendering of a value as Python `repr` produces it.  String quoting is
modelled in its common case (single quotes, no inner escaping); the hashing
claims only exercise the dictionary branch of `calculate_data_hash`, which
does not use `repr`. -/
def pyRepr : Value → String
  | .null => "None"
  | .bool b => if b then "True" else "False"
  | .int n => toString n
  | .str s => String.singleton (Char.ofNat 39) ++ s ++ String.singleton (Char.ofNat 39)
  | .arr xs => "[" ++ String.intercalate ", " (pyReprList xs) ++ "]"
  | .obj kvs => "\x7b" ++ String.intercalate ", " (pyReprEntries kvs) ++ "\x7d"

def pyReprList : List Value → List String
  | [] => []
  | v :: rest => pyRepr v :: pyReprList rest

def pyReprEntries : List (String × Value) → List String
  | [] => []
  | (k, v) :: rest =>
      (String.singleton (Char.ofNat 39) ++ k ++ String.singleton (Char.ofNat 39) ++ ": " ++ pyRepr v)
        :: pyReprEntries rest

end

/-- Rendering of a value as Python `str` produces it: strings are returned
verbatim, scalars print their literal form, containers fall back to `repr`. -/
def pyStr : Value → String
  | .null => "None"
  | .bool b => if b then "True" else "False"
  | .int n => toString n
  | .str s => s
  | .arr xs => pyRepr (.arr xs)
  | .obj kvs => pyRepr (.obj kvs)

/-- UTF-8 encoding of one code point, as Python `str.encode()` produces it. -/
def utf8EncodeChar (n : Nat) : List Nat :=
  if n < 128 then [n]
  else if n < 2048 then [192 + n / 64, 128 + n % 64]
  else if n < 65536 then [224 + n / 4096, 128 + (n / 64) % 64, 128 + n % 64]
  else [240 + n / 262144, 128 + (n / 4096) % 64, 128 + (n / 64) % 64, 128 + n % 64]

def utf8Encode (s : String) : List Nat :=
  s.toList.flatMap (fun c => utf8EncodeChar c.toNat)

/-- Working state of the SHA-256 compression function: eight 32-bit words. -/
structure Hash8 where
  a : Nat
  b : Nat
  c : Nat
  d : Nat
  e : Nat
  f : Nat
  g : Nat
  h : Nat

/-- Right rotation of a 32-bit word. -/
def rotr32 (n x : Nat) : Nat :=
  ((x >>> n) ||| ((x % 2 ^ n) <<< (32 - n))) % 4294967296

def sha256BigSigma0 (x : Nat) : Nat := rotr32 2 x ^^^ rotr32 13 x ^^^ rotr32 22 x

def sha256BigSigma1 (x : Nat) : Nat := rotr32 6 x ^^^ rotr32 11 x ^^^ rotr32 25 x

def sha256SmallSigma0 (x : Nat) : Nat := rotr32 7 x ^^^ rotr32 18 x ^^^ (x >>> 3)

def sha256SmallSigma1 (x : Nat) : Nat := rotr32 17 x ^^^ rotr32 19 x ^^^ (x >>> 10)

def sha256Ch (x y z : Nat) : Nat := (x &&& y) ^^^ ((x ^^^ 4294967295) &&& z)

def sha256Maj (x y z : Nat) : Nat := (x &&& y) ^^^ (x &&& z) ^^^ (y &&& z)

/-- The 64 SHA-256 round constants (FIPS 180-4), written in decimal. -/
def sha256K : List Nat :=
  [1116352408, 1899447441, 3049323471, 3921009573, 961987163, 1508970993,
   2453635748, 2870763221, 3624381080, 310598401, 607225278, 1426881987,
   1925078388, 2162078206, 2614888103, 3248222580, 3835390401, 4022224774,
   264347078, 604807628, 770255983, 1249150122, 1555081692, 1996064986,
   2554220882, 2821834349, 2952996808, 3210313671, 3336571891, 3584528711,
   113926993, 338241895, 666307205, 773529912, 1294757372, 1396182291,
   1695183700, 1986661051, 2177026350, 2456956037, 2730485921, 2820302411,
   3259730800, 3345764771, 3516065817, 3600352804, 4094571909, 275423344,
   430227734, 506948616, 659060556, 883997877, 958139571, 1322822218,
   1537002063, 1747873779, 1955562222, 2024104815, 2227730452, 2361852424,
   2428436474, 2756734187, 3204031479, 3329325298]

/-- The eight SHA-256 initial hash words (FIPS 180-4), written in decimal. -/
def sha256InitState : Hash8 :=
  ⟨1779033703, 3144134277, 1013904242, 2773480762, 1359893119, 2600822924,
   528734635, 1541459225⟩

/-- Extend a 16-word message block with `n` further schedule words. -/
def sha256Extend (ws : List Nat) : Nat → List Nat
  | 0 => ws
  | n + 1 =>
      let len := ws.length
      let t := (sha256SmallSigma1 (ws.getD (len - 2) 0) + ws.getD (len - 7) 0 +
                sha256SmallSigma0 (ws.getD (len - 15) 0) + ws.getD (len - 16) 0) % 4294967296
      sha256Extend (ws ++ [t]) n

/-- One round of the SHA-256 compression function. -/
def sha256Compress (s : Hash8) (kw : Nat) : Hash8 :=
  let t1 := (s.h + sha256BigSigma1 s.e + sha256Ch s.e s.f s.g + kw) % 4294967296
  let t2 := (sha256BigSigma0 s.a + sha256Maj s.a s.b s.c) % 4294967296
  ⟨(t1 + t2) % 4294967296, s.a, s.b, s.c, (s.d + t1) % 4294967296, s.e, s.f, s.g⟩

def sha256ProcessBlock (s : Hash8) (block : List Nat) : Hash8 :=
  let ws := sha256Extend block 48
  let kws := List.zipWith (fun k w => (k + w) % 4294967296) sha256K ws
  let t := kws.foldl sha256Compress s
  ⟨(s.a + t.a) % 4294967296, (s.b + t.b) % 4294967296, (s.c + t.c) % 4294967296,
   (s.d + t.d) % 4294967296, (s.e + t.e) % 4294967296, (s.f + t.f) % 4294967296,
   (s.g + t.g) % 4294967296, (s.h + t.h) % 4294967296⟩

/-- Merkle–Damgård padding: a 0x80 byte, zeros to 56 mod 64, and the bit
length as a big-endian 64-bit integer. -/
def sha256Pad (msg : List Nat) : List Nat :=
  let bitLen := msg.length * 8
  let zeros := (119 - msg.length % 64) % 64
  msg ++ [128] ++ List.replicate zeros 0 ++
    (List.range 8).map (fun i => (bitLen / 2 ^ (8 * (7 - i))) % 256)

/-- Group bytes into big-endian 32-bit words. -/
def sha256Words : List Nat → List Nat
  | b0 :: b1 :: b2 :: b3 :: rest =>
      (b0 * 16777216 + b1 * 65536 + b2 * 256 + b3) :: sha256Words rest
  | _ => []

/-- Group a word list into 16-word blocks. -/
def chunkWords : List Nat → List (List Nat)
  | [] => []
  | w :: ws => ((w :: ws).take 16) :: chunkWords ((w :: ws).drop 16)
termination_by l => l.length
decreasing_by simp; omega

def sha256Bytes (msg : List Nat) : List Nat :=
  let blocks := chunkWords (sha256Words (sha256Pad msg))
  let fin := blocks.foldl sha256ProcessBlock sha256InitState
  [fin.a, fin.b, fin.c, fin.d, fin.e, fin.f, fin.g, fin.h].flatMap
    (fun w => [(w / 16777216) % 256, (w / 65536) % 256, (w / 256) % 256, w % 256])

def sha256Hex (msg : List Nat) : String :=
  String.mk ((sha256Bytes msg).flatMap (fun b => [hexChar ((b / 16) % 16), hexChar (b % 16)]))

/-- Embedding of `BlockchainIntegration.calculate_data_hash`: dictionaries are
canonicalized with `json.dumps(data, sort_keys=True)`, every other value is
rendered with `str(data)`, and the UTF-8 encoding of the text is hashed with
SHA-256, returned as a lowercase hex digest. -/
def calculate_data_hash (data : Value) : String :=
  let data_string :=
    match data with
    | .obj kvs => jsonDumps (.obj kvs)
    | v => pyStr v
  sha256Hex (utf8Encode data_string)

/-- Outcome of the HTTP POST to the Pinata pinning gateway, as seen from
inside `upload_to_ipfs`: either a response with a status code and the
optional `IpfsHash` field of the parsed JSON body, or any exception raised
while opening the file or performing the request. -/
inductive HttpOutcome where
  | response : Nat → Option String → HttpOutcome
  | raised : String → HttpOutcome

/-- Truthiness of one configured credential (`os.getenv` yields `None` when
the variable is unset; an empty string is also falsy under `all([...])`). -/
def credTruthy : Option String → Bool
  | none => false
  | some s => s != ""

/-- Embedding of `BlockchainIntegration.upload_to_ipfs`.  With incomplete
credentials it returns `None` without any request.  Otherwise the whole
interaction sits inside a blanket `try/except`: a 200 response yields the
`IpfsHash` body field, any other status logs and returns `None`, and any
raised exception is caught and mapped to `None` — the function is total and
never lets an exception escape. -/
def upload_to_ipfs (apiKey pinataSecret : Option String) (http : HttpOutcome) : Option String :=
  if !(credTruthy apiKey && credTruthy pinataSecret) then none
  else
    match http with
    | .raised _ => none
    | .response status body =>
        if status = 200 then body else none

/-- Transaction receipt returned by `wait_for_transaction_receipt`. -/
structure TxReceipt where
  transactionHash : String
  blockNumber : Nat
  gasUsed : Nat
  status : Nat

/-- Transaction dictionary produced by `build_transaction`. -/
structure BuiltTx where
  args : List Value
  gas : Nat
  gasPrice : Nat
  nonce : Nat

/-- Observable ledger-side effects of one `issue_certificate` attempt. -/
inductive LedgerEvent where
  | txBuilt : BuiltTx → LedgerEvent
  | txSigned : LedgerEvent
  | txSubmitted : LedgerEvent

/-- Responses of the Ethereum node during one `issue_certificate` attempt.
`gasEstimate = none` models `estimate_gas` raising (so `estimate_gas_cost`
returns `(None, None)`); `gasPrice` is the price read during estimation and
`gasPriceBuild` the second read used in `build_transaction`; amounts are in
wei.  `sendOutcome` is `send_raw_transaction`, `waitOutcome` is
`wait_for_transaction_receipt` (an `.error` covers the confirmation
timeout). -/
structure LedgerWorld where
  gasEstimate : Option Nat
  gasPrice : Nat
  gasPriceBuild : Nat
  balance : Nat
  nonce : Nat
  sendOutcome : Except String String
  waitOutcome : Except String TxReceipt

/-- Argument tuple passed to the contract's `issueCertificate` function,
built exactly as in `issue_certificate` lines 192–209; a present but
non-dict `device_details`, `system_info` or `verification` raises
`AttributeError` at the `.get` call. -/
def build_call_args (d : PyDict) (ipfs_hash : String) : Except String (List Value) := do
  let certificate_id := (pyGet d "certificate_id").getD (.str "")
  let dd ← asDict (pyGet d "device_details")
  let si ← asDict (pyGet d "system_info")
  let ver ← asDict (pyGet d "verification")
  .ok [certificate_id,
       (pyGet dd "path").getD (.str ""),
       (pyGet dd "model").getD (.str ""),
       (pyGet dd "serial").getD (.str ""),
       (pyGet d "wipe_mode").getD (.str ""),
       (pyGet d "timestamp_utc").getD (.str ""),
       (pyGet si "hostname").getD (.str ""),
       (pyGet d "tool_version").getD (.str ""),
       (pyGet ver "log_hash_sha256").getD (.str ""),
       .str ipfs_hash]

/-- Embedding of `BlockchainIntegration.issue_certificate`.  The attempt
aborts (returning the escaped exception text, which the method logs and
re-raises) when gas estimation fails or yields a falsy 0, or when the
account balance is below `gas_estimate * gas_price`; the balance test
mirrors `balance_eth < cost_eth` — `from_wei` divides both sides by the same
power of ten exactly, so comparing in wei is equivalent.  Only after those
gates does it build the transaction with a gas limit of the estimate plus a
50000 buffer, sign it, submit it, and wait; a receipt whose status is not 1
raises `Transaction failed`.  The event trace records which network-mutating
steps were reached. -/
def issue_certificate (w : LedgerWorld) (d : PyDict) (ipfs_hash : String) :
    Except String TxReceipt × List LedgerEvent :=
  match build_call_args d ipfs_hash with
  | .error e => (.error e, [])
  | .ok args =>
    match w.gasEstimate with
    | none => (.error "Cannot estimate gas cost", [])
    | some gasEst =>
      if gasEst = 0 then (.error "Cannot estimate gas cost", [])
      else if w.balance < gasEst * w.gasPrice then
        (.error "Insufficient balance", [])
      else
        let tx : BuiltTx :=
          { args := args, gas := gasEst + 50000, gasPrice := w.gasPriceBuild, nonce := w.nonce }
        match w.sendOutcome with
        | .error e => (.error e, [.txBuilt tx, .txSigned])
        | .ok _txHash =>
          match w.waitOutcome with
          | .error e => (.error e, [.txBuilt tx, .txSigned, .txSubmitted])
          | .ok receipt =>
            if receipt.status = 1 then (.ok receipt, [.txBuilt tx, .txSigned, .txSubmitted])
            else (.error "Transaction failed", [.txBuilt tx, .txSigned, .txSubmitted])

/-- Embedding of `DataWipingCertificationSystem.validate_wipe_data`:
`.ok false` when a required key is missing, the device serial is absent or
falsy, or the success flag is falsy; `.error` when `device_details` is
present but is not a dict (so `.get` raises `AttributeError`, escaping the
validator); `.ok true` otherwise. -/
def validate_wipe_data (d : PyDict) : Except String Bool :=
  if !(["certificate_id", "device_details", "timestamp_utc", "success", "status"].all
        (fun fieldName => hasKey d fieldName)) then
    .ok false
  else
    match (pyGet d "device_details").getD (.obj []) with
    | .obj dd =>
        if !pyTruthy ((pyGet dd "serial").getD .null) then .ok false
        else if !pyTruthy ((pyGet d "success").getD .null) then .ok false
        else .ok true
    | _ => .error "AttributeError: object has no attribute get"

/-- Observable side effects of one `process_wipe_data` run. -/
inductive Event where
  | rendered : Event
  | ipfsUploadCalled : Event
  | ledgerIssueCalled : Event
  | fileRemoved : Event
deriving DecidableEq

/-- Environment of one `process_wipe_data` run: the PDF generator outcome
(`.ok` filename or an escaped exception), the Pinata credentials and gateway
outcome consumed by `upload_to_ipfs`, the ledger node responses, and whether
the rendered file still exists when the cleanup step checks for it. -/
structure OrchWorld where
  render : Except String String
  apiKey : Option String
  pinataSecret : Option String
  http : HttpOutcome
  ledger : LedgerWorld
  fileExists : Bool

/-- Result dictionary returned by `process_wipe_data`.  `certificate_id`
holds `wipe_data.get('certificate_id')` on success (Python `None` when the
key is absent maps to `.null`) and `wipe_data.get('certificate_id',
'unknown')` on failure. -/
structure PResult where
  success : Bool
  certificate_id : Value
  error : Option String
  transaction_hash : Option String
  block_number : Option Nat
  gas_used : Option Nat
  ipfs_hash : Option String
  ipfs_url : Option String

/-- Failure dictionary built in the `except` handler of
`process_wipe_data`. -/
def failureResult (e : String) (d : PyDict) : PResult :=
  { success := false,
    certificate_id := (pyGet d "certificate_id").getD (.str "unknown"),
    error := some e,
    transaction_hash := none, block_number := none, gas_used := none,
    ipfs_hash := none, ipfs_url := none }

/-- Embedding of `DataWipingCertificationSystem.process_wipe_data`.  The
whole body runs inside `try/except Exception`, so every escaped exception —
the `ValueError` raised on failed validation, an `AttributeError` out of the
validator, a generator failure, or a re-raised ledger failure — becomes the
failure dictionary.  A falsy (`None`) upload result degrades to the empty
string.  Cleanup of the rendered PDF happens after the ledger call returns,
so it is reached only when `issue_certificate` did not raise; the run's
event trace records which external steps were performed. -/
def process_wipe_data (w : OrchWorld) (d : PyDict) : PResult × List Event :=
  match validate_wipe_data d with
  | .error e => (failureResult e d, [])
  | .ok false => (failureResult "Invalid wipe data provided" d, [])
  | .ok true =>
    match w.render with
    | .error e => (failureResult e d, [])
    | .ok _pdfFilename =>
      let uploaded := upload_to_ipfs w.apiKey w.pinataSecret w.http
      let ipfs_hash := uploaded.getD ""
      match (issue_certificate w.ledger d ipfs_hash).1 with
      | .error e =>
          (failureResult e d, [.rendered, .ipfsUploadCalled, .ledgerIssueCalled])
      | .ok receipt =>
          ({ success := true,
             certificate_id := (pyGet d "certificate_id").getD .null,
             error := none,
             transaction_hash := some receipt.transactionHash,
             block_number := some receipt.blockNumber,
             gas_used := some receipt.gasUsed,
             ipfs_hash := some ipfs_hash,
             ipfs_url := if ipfs_hash != "" then
                 some ("https://gateway.pinata.cloud/ipfs/" ++ ipfs_hash)
               else none },
           [.rendered, .ipfsUploadCalled, .ledgerIssueCalled] ++
             (if w.fileExists then [.fileRemoved] else []))

/-- Ledger-side certificate entry stored by the deployed contract. -/
structure ContractEntry where
  deviceSerial : String
  wipeMethod : String
  timestamp : String
  ipfsHash : String
  issuer : String
  createdAt : Nat
  isValid : Bool

/-- Return tuple of the contract's `verifyCertificate` view, in ABI order:
`(exists, isValid, deviceSerial, wipeMethod, timestamp, ipfsHash, issuer,
createdAt)`. -/
abbrev VerifyTuple := Bool × Bool × String × String × String × String × String × Nat

/-- Modelled from the spec: the deployed contract's `verifyCertificate` view
function.  The Solidity source is not among the embedded files; per the
specification, querying an identifier that was never issued is a normal
call that returns `exists = false` with zero-valued fields rather than an
error, while an issued identifier returns `exists = true` together with the
entry's mutable validity flag. -/
def contract_verifyCertificate (ledger : String → Option ContractEntry)
    (certificateId : String) : VerifyTuple :=
  match ledger certificateId with
  | none => (false, false, "", "", "", "", "", 0)
  | some e => (true, e.isValid, e.deviceSerial, e.wipeMethod, e.timestamp,
               e.ipfsHash, e.issuer, e.createdAt)

/-- Dictionary returned by `BlockchainIntegration.verify_certificate`; the
Python keys are `exists`, `is_valid`, `device_serial`, `wipe_method`,
`timestamp`, `ipfs_hash`, `issuer`, `created_at` (`exists` is a Lean keyword,
hence `certExists`). -/
structure VerifyRecord where
  certExists : Bool
  is_valid : Bool
  device_serial : String
  wipe_method : String
  timestamp : String
  ipfs_hash : String
  issuer : String
  created_at : Nat

/-- Embedding of `BlockchainIntegration.verify_certificate`: the contract
call either returns a tuple, repackaged field by field into the result
dictionary, or raises, in which case the `except` handler returns `None` —
so a transport failure (`none`) is a distinct outcome from an absent entry
(`some` record with `certExists = false`). -/
def bi_verify_certificate (callOutcome : Except String VerifyTuple) : Option VerifyRecord :=
  match callOutcome with
  | .error _ => none
  | .ok (ex, iv, ds, wm, ts, ih, iss, ca) =>
      some { certExists := ex, is_valid := iv, device_serial := ds, wipe_method := wm,
             timestamp := ts, ipfs_hash := ih, issuer := iss, created_at := ca }

/-- Dictionary returned by `DataWipingCertificationSystem.verify_certificate`. -/
structure SysVerifyResult where
  valid : Bool
  certificate_id : String
  verification_result : Option VerifyRecord
  error : Option String

/-- Embedding of `DataWipingCertificationSystem.verify_certificate`: a truthy
lower-level result whose `exists` field is true yields `valid = true`
carrying the record; a missing entry or a `None` (transport failure) yields
`valid = false` with a not-found error message. -/
def sys_verify_certificate (callOutcome : Except String VerifyTuple)
    (certificateId : String) : SysVerifyResult :=
  match bi_verify_certificate callOutcome with
  | some r =>
      if r.certExists then
        { valid := true, certificate_id := certificateId,
          verification_result := some r, error := none }
      else
        { valid := false, certificate_id := certificateId,
          verification_result := none, error := some "Certificate not found on blockchain" }
  | none =>
      { valid := false, certificate_id := certificateId,
        verification_result := none, error := some "Certificate not found on blockchain" }

instance keyLeTotal {α : Type} : IsTotal (String × α) (fun p q => p.1 ≤ q.1) :=
  ⟨fun p q => le_total p.1 q.1⟩

instance keyLeTrans {α : Type} : IsTrans (String × α) (fun p q => p.1 ≤ q.1) :=
  ⟨fun _ _ _ h1 h2 => le_trans h1 h2⟩

instance keyLtAntisymm {α : Type} : IsAntisymm (String × α) (fun p q => p.1 < q.1) :=
  ⟨fun _ _ h1 h2 => absurd (lt_trans h1 h2) (lt_irrefl _)⟩

theorem sortByKey_sorted {α : Type} (l : List (String × α)) :
    List.Sorted (fun p q : String × α => p.1 ≤ q.1) (sortByKey l) :=
  List.sorted_insertionSort _ l

theorem sortByKey_perm {α : Type} (l : List (String × α)) : (sortByKey l).Perm l :=
  List.perm_insertionSort _ l

/-- Sorting by key is a function of the entry multiset when keys are
distinct: two permuted association lists with duplicate-free keys sort to
the same list. -/
theorem sortByKey_eq_of_perm {α : Type} {l1 l2 : List (String × α)}
    (hp : l1.Perm l2) (hnd : (l1.map Prod.fst).Nodup) :
    sortByKey l1 = sortByKey l2 := by
  have hperm : (sortByKey l1).Perm (sortByKey l2) :=
    (sortByKey_perm l1).trans (hp.trans (sortByKey_perm l2).symm)
  have hnd1 : ((sortByKey l1).map Prod.fst).Nodup :=
    (((sortByKey_perm l1).map Prod.fst).nodup_iff).2 hnd
  have hnd2 : ((sortByKey l2).map Prod.fst).Nodup :=
    (((sortByKey_perm l2).map Prod.fst).nodup_iff).2 (((hp.map Prod.fst).nodup_iff).1 hnd)
  have hne1 : (sortByKey l1).Pairwise (fun p q => p.1 ≠ q.1) := List.pairwise_map.1 hnd1
  have hne2 : (sortByKey l2).Pairwise (fun p q => p.1 ≠ q.1) := List.pairwise_map.1 hnd2
  have hlt1 : (sortByKey l1).Pairwise (fun p q : String × α => p.1 < q.1) :=
    ((sortByKey_sorted l1).and hne1).imp (fun h => lt_of_le_of_ne h.1 h.2)
  have hlt2 : (sortByKey l2).Pairwise (fun p q : String × α => p.1 < q.1) :=
    ((sortByKey_sorted l2).and hne2).imp (fun h => lt_of_le_of_ne h.1 h.2)
  exact List.eq_of_perm_of_sorted hperm hlt1 hlt2

theorem jsonDumpsEntries_eq_map (kvs : List (String × Value)) :
    jsonDumpsEntries kvs = kvs.map (fun p => (p.1, jsonDumps p.2)) := by
  induction kvs with
  | nil => rfl
  | cons p rest ih => cases p; simp [jsonDumpsEntries, ih]

/-- Minimal valid record from the specification's end-to-end scenario. -/
def sampleRecord : PyDict :=
  [("certificate_id", .str "c1"),
   ("device_details", .obj [("serial", .str "S1")]),
   ("timestamp_utc", .str "20250101T000000Z"),
   ("success", .bool true),
   ("status", .str "Success")]

/-- Ledger responses for a fully successful issuance attempt. -/
def sampleLedger : LedgerWorld :=
  { gasEstimate := some 21000, gasPrice := 2, gasPriceBuild := 2,
    balance := 1000000000, nonce := 5,
    sendOutcome := .ok "0xabc",
    waitOutcome := .ok ⟨"0xabc", 12, 21000, 1⟩ }

/-- Environment for a fully successful `process_wipe_data` run. -/
def sampleWorld : OrchWorld :=
  { render := .ok "certificate_c1.pdf", apiKey := some "k", pinataSecret := some "s",
    http := .response 200 (some "QmSample"), ledger := sampleLedger, fileExists := true }

/-- C1: a record that fails input validation (missing required key, absent or
empty device serial, falsy success flag) makes `process_wipe_data` return a
failure result whose error is the validation message, with an empty side
effect trace — nothing rendered, no storage upload attempted, no ledger
call. -/
theorem C1_validation_failure_is_pure (w : OrchWorld) (d : PyDict)
    (h : validate_wipe_data d = .ok false) :
    (process_wipe_data w d).1.success = false ∧
    (process_wipe_data w d).1.error = some "Invalid wipe data provided" ∧
    (process_wipe_data w d).2 = [] := by
  simp [process_wipe_data, h, failureResult]

/-- C1 witness: the empty record fails validation and is rejected with no
side effects. -/
theorem C1_validation_failure_is_pure_witness :
    validate_wipe_data [] = .ok false ∧
    ((process_wipe_data sampleWorld []).1.success = false ∧
     (process_wipe_data sampleWorld []).1.error = some "Invalid wipe data provided" ∧
     (process_wipe_data sampleWorld []).2 = []) :=
  ⟨rfl, C1_validation_failure_is_pure sampleWorld [] rfl⟩

/-- C2: when the account balance is below the estimated cost (gas estimate
times the gas price read during estimation), `issue_certificate` aborts with
the insufficient-balance error and its trace is empty — no transaction is
built, signed, or submitted. -/
theorem C2_insufficient_balance_aborts (w : LedgerWorld) (d : PyDict) (ih : String)
    (hargs : ∃ args, build_call_args d ih = .ok args)
    (g : Nat) (hg : w.gasEstimate = some g) (hg0 : g ≠ 0)
    (hbal : w.balance < g * w.gasPrice) :
    issue_certificate w d ih = (.error "Insufficient balance", []) := by
  obtain ⟨args, ha⟩ := hargs
  simp [issue_certificate, ha, hg, hg0, hbal]

/-- C2 witness: an account holding 100 wei cannot afford a 21000-gas call at
a price of 2 wei per gas, and the attempt stops before building anything. -/
theorem C2_insufficient_balance_aborts_witness :
    ({ sampleLedger with balance := 100 } : LedgerWorld).balance < 21000 * 2 ∧
    issue_certificate { sampleLedger with balance := 100 } sampleRecord "" =
      (.error "Insufficient balance", []) :=
  ⟨by decide,
   C2_insufficient_balance_aborts { sampleLedger with balance := 100 } sampleRecord ""
     ⟨_, rfl⟩ 21000 rfl (by decide) (by decide)⟩

/-- C4: `calculate_data_hash` is insensitive to dictionary key order — two
records equal as key-value maps (same entries up to permutation, with
duplicate-free keys) produce the same SHA-256 hex digest, because the
serialization sorts entries by key before hashing. -/
theorem C4_hash_is_order_independent (kvs1 kvs2 : List (String × Value))
    (hp : kvs1.Perm kvs2) (hnd : (kvs1.map Prod.fst).Nodup) :
    calculate_data_hash (.obj kvs1) = calculate_data_hash (.obj kvs2) := by
  have hentries : (jsonDumpsEntries kvs1).Perm (jsonDumpsEntries kvs2) := by
    rw [jsonDumpsEntries_eq_map, jsonDumpsEntries_eq_map]
    exact hp.map _
  have hkeys : ((jsonDumpsEntries kvs1).map Prod.fst).Nodup := by
    rw [jsonDumpsEntries_eq_map, List.map_map]
    exact hnd
  have hsort : sortByKey (jsonDumpsEntries kvs1) = sortByKey (jsonDumpsEntries kvs2) :=
    sortByKey_eq_of_perm hentries hkeys
  simp [calculate_data_hash, jsonDumps, hsort]

/-- C4 witness: hashing the entries `a ↦ 1, b ↦ 2` in either insertion order
gives the same digest. -/
theorem C4_hash_is_order_independent_witness :
    ([("a", Value.int 1), ("b", Value.int 2)]).Perm [("b", Value.int 2), ("a", Value.int 1)] ∧
    calculate_data_hash (.obj [("a", .int 1), ("b", .int 2)]) =
      calculate_data_hash (.obj [("b", .int 2), ("a", .int 1)]) := by
  have hp : ([("a", Value.int 1), ("b", Value.int 2)]).Perm
      [("b", Value.int 2), ("a", Value.int 1)] :=
    List.Perm.swap _ _ _
  exact ⟨hp, C4_hash_is_order_independent _ _ hp (by simp)⟩

/-- C3: `upload_to_ipfs` maps a non-200 gateway response and any raised
transport error to `None` (it is a total function, so nothing escapes its
boundary), and a `None` upload result degrades to an empty storage
reference in `process_wipe_data`, which still completes with
`success = true` whenever the ledger step succeeds. -/
theorem C3_storage_failure_degrades :
    (∀ k s st b, st ≠ 200 → upload_to_ipfs k s (.response st b) = none) ∧
    (∀ k s m, upload_to_ipfs k s (.raised m) = none) ∧
    (∀ (w : OrchWorld) (d : PyDict), validate_wipe_data d = .ok true →
      (∃ pdf, w.render = .ok pdf) →
      upload_to_ipfs w.apiKey w.pinataSecret w.http = none →
      ∀ r, (issue_certificate w.ledger d "").1 = .ok r →
        (process_wipe_data w d).1.success = true ∧
        (process_wipe_data w d).1.ipfs_hash = some "") := by
  refine ⟨?_, ?_, ?_⟩
  · intro k s st b hst
    unfold upload_to_ipfs
    split
    · rfl
    · simp [hst]
  · intro k s m
    unfold upload_to_ipfs
    split
    · rfl
    · rfl
  · rintro w d hv ⟨pdf, hr⟩ hup r hok
    simp [process_wipe_data, hv, hr, hup, hok]

/-- C3 witness: with credentials configured, an HTTP 500 gateway response
yields no content identifier, and the pipeline still issues successfully
with an empty storage reference. -/
theorem C3_storage_failure_degrades_witness :
    upload_to_ipfs (some "k") (some "s") (.response 500 none) = none ∧
    (process_wipe_data { sampleWorld with http := .response 500 none } sampleRecord).1.success = true ∧
    (process_wipe_data { sampleWorld with http := .response 500 none } sampleRecord).1.ipfs_hash = some "" := by
  have h1 : upload_to_ipfs (some "k") (some "s") (.response 500 none) = none :=
    C3_storage_failure_degrades.1 (some "k") (some "s") 500 none (by decide)
  have h2 := C3_storage_failure_degrades.2.2 { sampleWorld with http := .response 500 none }
    sampleRecord rfl ⟨"certificate_c1.pdf", rfl⟩ h1 ⟨"0xabc", 12, 21000, 1⟩ rfl
  exact ⟨h1, h2⟩

/-- C5: resolving an identifier that was never issued is a normal outcome of
the read path — the contract view returns `exists = false`, the client wraps
it into a present result record rather than raising, and that outcome is
distinct from the `None` produced by a transport failure. -/
theorem C5_absent_entry_is_normal (L : String → Option ContractEntry) (cid : String)
    (h : L cid = none) :
    (∃ r, bi_verify_certificate (.ok (contract_verifyCertificate L cid)) = some r ∧
       r.certExists = false) ∧
    (∀ m, bi_verify_certificate (.error m) = none) ∧
    (∀ m, bi_verify_certificate (.ok (contract_verifyCertificate L cid)) ≠
       bi_verify_certificate (.error m)) := by
  refine ⟨⟨{ certExists := false, is_valid := false, device_serial := "", wipe_method := "",
             timestamp := "", ipfs_hash := "", issuer := "", created_at := 0 }, ?_, rfl⟩,
          fun _ => rfl, fun m => ?_⟩
  · simp [contract_verifyCertificate, h, bi_verify_certificate]
  · simp [contract_verifyCertificate, h, bi_verify_certificate]

/-- C5 witness: on an empty ledger, resolving `never-issued` reports
`exists = false` as a present record, distinct from a transport failure. -/
theorem C5_absent_entry_is_normal_witness :
    (fun _ : String => (none : Option ContractEntry)) "never-issued" = none ∧
    ((∃ r, bi_verify_certificate
        (.ok (contract_verifyCertificate (fun _ => none) "never-issued")) = some r ∧
        r.certExists = false) ∧
     (∀ m, bi_verify_certificate (.error m) = none) ∧
     (∀ m, bi_verify_certificate
        (.ok (contract_verifyCertificate (fun _ => none) "never-issued")) ≠
        bi_verify_certificate (.error m))) :=
  ⟨rfl, C5_absent_entry_is_normal (fun _ => none) "never-issued" rfl⟩

/-- C9: the verification view carries existence and validity independently —
for any stored entry the wrapped result has `exists = true` while its
validity mirrors the entry's mutable flag, so an entry can exist and be
invalid and the caller sees both facts separately. -/
theorem C9_existence_validity_independent (L : String → Option ContractEntry)
    (cid : String) (e : ContractEntry) (h : L cid = some e) :
    bi_verify_certificate (.ok (contract_verifyCertificate L cid)) =
      some { certExists := true, is_valid := e.isValid, device_serial := e.deviceSerial,
             wipe_method := e.wipeMethod, timestamp := e.timestamp, ipfs_hash := e.ipfsHash,
             issuer := e.issuer, created_at := e.createdAt } := by
  simp [contract_verifyCertificate, h, bi_verify_certificate]

/-- C9 witness: a revoked entry resolves to a record that exists and is
invalid at the same time. -/
theorem C9_existence_validity_independent_witness :
    (⟨"S1", "quick", "20250101T000000Z", "QmSample", "0xissuer", 1735689600, false⟩ :
        ContractEntry).isValid = false ∧
    bi_verify_certificate (.ok (contract_verifyCertificate
        (fun _ => some ⟨"S1", "quick", "20250101T000000Z", "QmSample", "0xissuer", 1735689600, false⟩)
        "c1")) =
      some { certExists := true, is_valid := false, device_serial := "S1",
             wipe_method := "quick", timestamp := "20250101T000000Z", ipfs_hash := "QmSample",
             issuer := "0xissuer", created_at := 1735689600 } :=
  ⟨rfl, C9_existence_validity_independent _ "c1" _ rfl⟩

/-- Ledger responses where submission succeeds but confirmation times out,
so `wait_for_transaction_receipt` raises and `issue_certificate` re-raises. -/
def timeoutLedger : LedgerWorld :=
  { gasEstimate := some 21000, gasPrice := 2, gasPriceBuild := 2,
    balance := 1000000000, nonce := 5,
    sendOutcome := .ok "0xdead",
    waitOutcome := .error "Transaction timed out" }

/-- Environment where rendering succeeds, the rendered file exists, and the
ledger step fails. -/
def timeoutWorld : OrchWorld :=
  { render := .ok "certificate_c1.pdf", apiKey := none, pinataSecret := none,
    http := .raised "unused", ledger := timeoutLedger, fileExists := true }

/-- C6 counterexample: on a run where rendering happened, the rendered file
still exists, and the ledger commit fails, `process_wipe_data` returns the
failure without deleting the artifact — cleanup sits after the ledger call
inside the `try` block, so the failure path never reaches it. -/
theorem C6_counterexample_no_cleanup_on_ledger_failure :
    (process_wipe_data timeoutWorld sampleRecord).1.success = false ∧
    Event.rendered ∈ (process_wipe_data timeoutWorld sampleRecord).2 ∧
    timeoutWorld.fileExists = true ∧
    Event.fileRemoved ∉ (process_wipe_data timeoutWorld sampleRecord).2 := by
  decide

/-- C6 as amended: once rendering has succeeded, the transient artifact is
deleted only on the success path of the ledger commit (when the file still
exists); when the ledger step raises, the run ends without deleting it. -/
theorem C6_cleanup_only_on_ledger_success (w : OrchWorld) (d : PyDict) (pdf : String)
    (hv : validate_wipe_data d = .ok true) (hr : w.render = .ok pdf) :
    ((∃ r, (issue_certificate w.ledger d
        ((upload_to_ipfs w.apiKey w.pinataSecret w.http).getD "")).1 = .ok r) →
      w.fileExists = true → Event.fileRemoved ∈ (process_wipe_data w d).2) ∧
    ((∃ e, (issue_certificate w.ledger d
        ((upload_to_ipfs w.apiKey w.pinataSecret w.http).getD "")).1 = .error e) →
      Event.fileRemoved ∉ (process_wipe_data w d).2) := by
  constructor
  · rintro ⟨r, hok⟩ hfe
    simp [process_wipe_data, hv, hr, hok, hfe]
  · rintro ⟨e, herr⟩
    simp [process_wipe_data, hv, hr, herr]

/-- C6 amended witness: in the fully successful run the artifact is removed,
and in the timed-out run it is not. -/
theorem C6_cleanup_only_on_ledger_success_witness :
    validate_wipe_data sampleRecord = .ok true ∧
    Event.fileRemoved ∈ (process_wipe_data sampleWorld sampleRecord).2 ∧
    Event.fileRemoved ∉ (process_wipe_data timeoutWorld sampleRecord).2 :=
  ⟨rfl,
   (C6_cleanup_only_on_ledger_success sampleWorld sampleRecord "certificate_c1.pdf" rfl rfl).1
     ⟨⟨"0xabc", 12, 21000, 1⟩, rfl⟩ rfl,
   (C6_cleanup_only_on_ledger_success timeoutWorld sampleRecord "certificate_c1.pdf" rfl rfl).2
     ⟨"Transaction timed out", rfl⟩⟩

/-- A record that passes validation contains the `certificate_id` key: the
validator's required-field loop checks it before anything else. -/
theorem validate_ok_has_certificate_id {d : PyDict}
    (hv : validate_wipe_data d = .ok true) : (pyGet d "certificate_id").isSome := by
  unfold validate_wipe_data at hv
  cases hall : (["certificate_id", "device_details", "timestamp_utc", "success", "status"].all
      (fun fieldName => hasKey d fieldName)) with
  | false => rw [hall] at hv; simp at hv
  | true =>
      have := List.all_eq_true.mp hall "certificate_id" (by simp)
      simpa [hasKey] using this

/-- C7: once a record has passed validation, a failure escaping the
rendering step or the ledger commit makes `process_wipe_data` return a
failure result that carries the record's own `certificate_id` value and the
textual cause of the failure. -/
theorem C7_failure_carries_certificate_id (w : OrchWorld) (d : PyDict)
    (hv : validate_wipe_data d = .ok true) :
    (∀ e, w.render = .error e →
      (process_wipe_data w d).1.success = false ∧
      (process_wipe_data w d).1.error = some e ∧
      ∃ v, pyGet d "certificate_id" = some v ∧ (process_wipe_data w d).1.certificate_id = v) ∧
    (∀ pdf e, w.render = .ok pdf →
      (issue_certificate w.ledger d
        ((upload_to_ipfs w.apiKey w.pinataSecret w.http).getD "")).1 = .error e →
      (process_wipe_data w d).1.success = false ∧
      (process_wipe_data w d).1.error = some e ∧
      ∃ v, pyGet d "certificate_id" = some v ∧ (process_wipe_data w d).1.certificate_id = v) := by
  obtain ⟨v, hvv⟩ := Option.isSome_iff_exists.mp (validate_ok_has_certificate_id hv)
  constructor
  · intro e hre
    refine ⟨?_, ?_, v, hvv, ?_⟩ <;> simp [process_wipe_data, hv, hre, failureResult, hvv]
  · intro pdf e hrok hie
    refine ⟨?_, ?_, v, hvv, ?_⟩ <;> simp [process_wipe_data, hv, hrok, hie, failureResult, hvv]

/-- C7 witness: with the sample record, a PDF-generation failure yields a
failure result carrying `certificate_id = "c1"` and the exception text. -/
theorem C7_failure_carries_certificate_id_witness :
    validate_wipe_data sampleRecord = .ok true ∧
    ((process_wipe_data { sampleWorld with render := .error "PDF generation failed" }
        sampleRecord).1.success = false ∧
     (process_wipe_data { sampleWorld with render := .error "PDF generation failed" }
        sampleRecord).1.error = some "PDF generation failed" ∧
     ∃ v, pyGet sampleRecord "certificate_id" = some v ∧
       (process_wipe_data { sampleWorld with render := .error "PDF generation failed" }
         sampleRecord).1.certificate_id = v) :=
  ⟨rfl,
   (C7_failure_carries_certificate_id { sampleWorld with render := .error "PDF generation failed" }
     sampleRecord rfl).1 "PDF generation failed" rfl⟩

/-- C10: `process_wipe_data` is total at its boundary — for every input and
every environment outcome it returns a dictionary, either a success with no
error field or a failure with `success = false` and a string error; no
exception propagates to the caller. -/
theorem C10_boundary_is_total (w : OrchWorld) (d : PyDict) :
    ((process_wipe_data w d).1.success = true ∧ (process_wipe_data w d).1.error = none) ∨
    ((process_wipe_data w d).1.success = false ∧
      ∃ e, (process_wipe_data w d).1.error = some e) := by
  rcases hv : validate_wipe_data d with e | b
  · right; simp [process_wipe_data, hv, failureResult]
  · cases b
    · right; simp [process_wipe_data, hv, failureResult]
    · rcases hr : w.render with e | pdf
      · right; simp [process_wipe_data, hv, hr, failureResult]
      · rcases hi : (issue_certificate w.ledger d
            ((upload_to_ipfs w.apiKey w.pinataSecret w.http).getD "")).1 with e | r
        · right; simp [process_wipe_data, hv, hr, hi, failureResult]
        · left; simp [process_wipe_data, hv, hr, hi]

/-- C8: whenever an issuance attempt builds a transaction, the gas limit
placed in it is exactly the gas estimate plus the fixed 50000-unit safety
buffer. -/
theorem C8_gas_limit_has_fixed_margin (w : LedgerWorld) (d : PyDict) (ih : String)
    (tx : BuiltTx) (h : LedgerEvent.txBuilt tx ∈ (issue_certificate w d ih).2) :
    ∃ g, w.gasEstimate = some g ∧ tx.gas = g + 50000 := by
  rcases hb : build_call_args d ih with e | args
  · simp [issue_certificate, hb] at h
  · rcases hg : w.gasEstimate with _ | g
    · simp [issue_certificate, hb, hg] at h
    · by_cases h0 : g = 0
      · simp [issue_certificate, hb, hg, h0] at h
      · by_cases hbal : w.balance < g * w.gasPrice
        · simp [issue_certificate, hb, hg, h0, hbal] at h
        · refine ⟨g, rfl, ?_⟩
          rcases hs : w.sendOutcome with es | txh
          · simp [issue_certificate, hb, hg, h0, hbal, hs] at h
            rw [h]
          · rcases hw : w.waitOutcome with ew | rc
            · simp [issue_certificate, hb, hg, h0, hbal, hs, hw] at h
              rw [h]
            · by_cases hst : rc.status = 1
              · simp [issue_certificate, hb, hg, h0, hbal, hs, hw, hst] at h
                rw [h]
              · simp [issue_certificate, hb, hg, h0, hbal, hs, hw, hst] at h
                rw [h]

/-- Argument tuple and transaction built during the sample issuance run. -/
def c8Args : List Value :=
  [.str "c1", .str "", .str "", .str "S1", .str "", .str "20250101T000000Z",
   .str "", .str "", .str "", .str ""]

def c8Tx : BuiltTx := { args := c8Args, gas := 71000, gasPrice := 2, nonce := 5 }

/-- C8 witness: the sample run builds its transaction with a gas limit of
`21000 + 50000`. -/
theorem C8_gas_limit_has_fixed_margin_witness :
    LedgerEvent.txBuilt c8Tx ∈ (issue_certificate sampleLedger sampleRecord "").2 ∧
    ∃ g, sampleLedger.gasEstimate = some g ∧ c8Tx.gas = g + 50000 := by
  have hmem : LedgerEvent.txBuilt c8Tx ∈ (issue_certificate sampleLedger sampleRecord "").2 := by
    show LedgerEvent.txBuilt c8Tx ∈
      [LedgerEvent.txBuilt c8Tx, LedgerEvent.txSigned, LedgerEvent.txSubmitted]
    exact List.Mem.head _
  exact ⟨hmem, C8_gas_limit_has_fixed_margin sampleLedger sampleRecord "" c8Tx hmem⟩
